import Mathlib

/-!
Verification of the build-it-agent core against its specification.

The development shallowly embeds the relevant Rust modules:
* `src/rusq.rs`  — the priority MPMC queue (`Rusq` namespace);
* `src/executor.rs` and `src/types.rs` — the runner, the job registry and the
  HTTP admission handler (`Exec` namespace);
* `src/monitor.rs` — the forbidden-process detector (`Monitor` namespace).

Machine integers are embedded as `Nat` with explicit reduction modulo `2 ^ w`
at the operations where Rust wraps (`AtomicU64::fetch_add` / `fetch_sub`
always wrap; `u32` addition wraps in release builds).
-/

namespace Rusq

/-- 2 ^ 64, the modulus of the u64 atomics used by the metrics. -/
def U64_MOD : Nat := 2 ^ 64

/-- 2 ^ 32, the modulus of the u32 retry counter. -/
def U32_MOD : Nat := 2 ^ 32

/-- Embeds enum Priority (rusq.rs lines 10-15). -/
inductive Priority where
  | Low
  | Normal
  | High
  | Critical
deriving DecidableEq

/-- Embeds struct Message (rusq.rs lines 19-26).  The Rust id generator and
clock are impure; the embedding passes the generated id and timestamp as
arguments to `Message.new`. -/
structure Message (T : Type) where
  id : Nat
  payload : T
  priority : Priority
  timestamp : Nat
  retry_count : Nat
  topic : String
deriving DecidableEq

/-- Embeds Message::new (rusq.rs lines 29-38): Normal priority, zero retries. -/
def Message.new {T : Type} (id timestamp : Nat) (payload : T) (topic : String) :
    Message T :=
  { id := id, payload := payload, priority := Priority.Normal,
    timestamp := timestamp, retry_count := 0, topic := topic }

/-- Embeds Message::with_priority (rusq.rs lines 40-43). -/
def Message.with_priority {T : Type} (m : Message T) (priority : Priority) :
    Message T :=
  { m with priority := priority }

/-- Embeds struct RusqConfig (rusq.rs lines 48-59). -/
structure RusqConfig where
  capacity : Option Nat
  enable_priority : Bool
  max_retries : Nat
  consumer_timeout_ms : Nat
  enable_metrics : Bool
deriving DecidableEq

/-- Embeds Default for RusqConfig (rusq.rs lines 61-71). -/
def RusqConfig.default : RusqConfig :=
  { capacity := some 10000, enable_priority := true, max_retries := 3,
    consumer_timeout_ms := 1000, enable_metrics := true }

/-- Embeds enum RusqError (rusq.rs lines 561-567). -/
inductive RusqError where
  | QueueFull
  | QueueShutdown
  | Empty
  | Timeout
  | RetryRequired
deriving DecidableEq

/-- The Debug rendering of a RusqError, as produced by format with {:?}. -/
def RusqError.debugStr : RusqError → String
  | RusqError.QueueFull => "QueueFull"
  | RusqError.QueueShutdown => "QueueShutdown"
  | RusqError.Empty => "Empty"
  | RusqError.Timeout => "Timeout"
  | RusqError.RetryRequired => "RetryRequired"

/-- Embeds struct RusqMetrics (rusq.rs lines 75-82): six u64 atomics, stored
as `Nat` values below `2 ^ 64`. -/
structure RusqMetrics where
  messages_sent : Nat
  messages_received : Nat
  messages_failed : Nat
  messages_retried : Nat
  active_producers : Nat
  active_consumers : Nat
deriving DecidableEq

/-- Embeds RusqMetrics::new / Default (rusq.rs lines 84-87). -/
def RusqMetrics.new : RusqMetrics :=
  { messages_sent := 0, messages_received := 0, messages_failed := 0,
    messages_retried := 0, active_producers := 0, active_consumers := 0 }

/-- AtomicU64::fetch_add(1) wraps modulo 2 ^ 64. -/
def u64Incr (n : Nat) : Nat := (n + 1) % U64_MOD

/-- AtomicU64::fetch_sub(1) wraps modulo 2 ^ 64. -/
def u64Decr (n : Nat) : Nat := (n + (U64_MOD - 1)) % U64_MOD

/-- Embeds RusqMetrics::increment_sent (rusq.rs lines 89-91). -/
def RusqMetrics.increment_sent (m : RusqMetrics) : RusqMetrics :=
  { m with messages_sent := u64Incr m.messages_sent }

/-- Embeds RusqMetrics::increment_received (rusq.rs lines 93-95). -/
def RusqMetrics.increment_received (m : RusqMetrics) : RusqMetrics :=
  { m with messages_received := u64Incr m.messages_received }

/-- Embeds RusqMetrics::increment_failed (rusq.rs lines 97-99). -/
def RusqMetrics.increment_failed (m : RusqMetrics) : RusqMetrics :=
  { m with messages_failed := u64Incr m.messages_failed }

/-- Embeds RusqMetrics::increment_retried (rusq.rs lines 101-103). -/
def RusqMetrics.increment_retried (m : RusqMetrics) : RusqMetrics :=
  { m with messages_retried := u64Incr m.messages_retried }

/-- Embeds RusqMetrics::add_producer (rusq.rs lines 105-107). -/
def RusqMetrics.add_producer (m : RusqMetrics) : RusqMetrics :=
  { m with active_producers := u64Incr m.active_producers }

/-- Embeds RusqMetrics::remove_producer (rusq.rs lines 109-111). -/
def RusqMetrics.remove_producer (m : RusqMetrics) : RusqMetrics :=
  { m with active_producers := u64Decr m.active_producers }

/-- Embeds RusqMetrics::add_consumer (rusq.rs lines 113-115). -/
def RusqMetrics.add_consumer (m : RusqMetrics) : RusqMetrics :=
  { m with active_consumers := u64Incr m.active_consumers }

/-- Embeds RusqMetrics::remove_consumer (rusq.rs lines 117-119). -/
def RusqMetrics.remove_consumer (m : RusqMetrics) : RusqMetrics :=
  { m with active_consumers := u64Decr m.active_consumers }

/-- Embeds struct MetricsSnapshot (rusq.rs lines 134-141). -/
structure MetricsSnapshot where
  messages_sent : Nat
  messages_received : Nat
  messages_failed : Nat
  messages_retried : Nat
  active_producers : Nat
  active_consumers : Nat
deriving DecidableEq

/-- Embeds RusqMetrics::snapshot (rusq.rs lines 121-130). -/
def RusqMetrics.snapshot (m : RusqMetrics) : MetricsSnapshot :=
  { messages_sent := m.messages_sent, messages_received := m.messages_received,
    messages_failed := m.messages_failed, messages_retried := m.messages_retried,
    active_producers := m.active_producers, active_consumers := m.active_consumers }

/-- A crossbeam channel endpoint pair: the FIFO buffer plus liveness of the
two sides.  In MpmcQueue both sides stay alive for the lifetime of the queue
(the queue struct owns a sender and a receiver of every band), but the flags
are kept so that the Disconnected behaviour of try_recv and try_send is
representable. -/
structure Chan (T : Type) where
  msgs : List (Message T)
  senderAlive : Bool
  recvAlive : Bool
  capacity : Option Nat
deriving DecidableEq

/-- Fresh channel as produced by bounded(cap) or unbounded() (rusq.rs
lines 170-176). -/
def Chan.new (T : Type) (capacity : Option Nat) : Chan T :=
  { msgs := [], senderAlive := true, recvAlive := true, capacity := capacity }

/-- A bounded crossbeam channel is full when its length has reached its
capacity; an unbounded channel is never full. -/
def Chan.isFull {T : Type} (c : Chan T) : Bool :=
  match c.capacity with
  | some cap => decide (cap ≤ c.msgs.length)
  | none => false

/-- Outcome of crossbeam Receiver::try_recv. -/
inductive TryRecvOut (T : Type) where
  | ok (m : Message T) (rest : Chan T)
  | empty
  | disconnected

/-- crossbeam Receiver::try_recv: pops the FIFO head; on an empty channel it
reports Empty while some sender is alive and Disconnected otherwise. -/
def Chan.tryRecv {T : Type} (c : Chan T) : TryRecvOut T :=
  match c.msgs with
  | m :: rest => TryRecvOut.ok m { c with msgs := rest }
  | [] => if c.senderAlive then TryRecvOut.empty else TryRecvOut.disconnected

/-- Outcome of crossbeam Sender::try_send. -/
inductive TrySendOut (T : Type) where
  | ok (c : Chan T)
  | full
  | disconnected

/-- crossbeam Sender::try_send: fails Disconnected when no receiver is alive,
fails Full on a full bounded channel, otherwise appends at the FIFO tail. -/
def Chan.trySend {T : Type} (c : Chan T) (m : Message T) : TrySendOut T :=
  if !c.recvAlive then TrySendOut.disconnected
  else if c.isFull then TrySendOut.full
  else TrySendOut.ok { c with msgs := c.msgs ++ [m] }

/-- Embeds struct MpmcQueue (rusq.rs lines 144-162): four priority bands, a
dead-letter band, the config, the metrics and the shutdown flag.  The
Producer and Consumer handles of the Rust code are clones of the channel
ends plus shared pointers to the same metrics and flag, so operations of
both handles are embedded as functions on this one state. -/
structure MpmcQueue (T : Type) where
  critical : Chan T
  high : Chan T
  normal : Chan T
  low : Chan T
  dlq : Chan T
  config : RusqConfig
  metrics : RusqMetrics
  is_shutdown : Bool
deriving DecidableEq

/-- Embeds MpmcQueue::new (rusq.rs lines 169-199): every band gets the
configured capacity, the DLQ is always unbounded. -/
def MpmcQueue.new (T : Type) (config : RusqConfig) : MpmcQueue T :=
  { critical := Chan.new T config.capacity,
    high := Chan.new T config.capacity,
    normal := Chan.new T config.capacity,
    low := Chan.new T config.capacity,
    dlq := Chan.new T none,
    config := config,
    metrics := RusqMetrics.new,
    is_shutdown := false }

/-- Embeds MpmcQueue::producer (rusq.rs lines 202-216): bumps the producer
gauge only when metrics are enabled.  The handle itself carries no state of
its own, so creating it is embedded as the metrics effect on the queue. -/
def MpmcQueue.producer {T : Type} (q : MpmcQueue T) : MpmcQueue T :=
  if q.config.enable_metrics then { q with metrics := q.metrics.add_producer }
  else q

/-- Embeds Drop for Producer (rusq.rs lines 343-347): decrements the gauge
unconditionally, with no enable_metrics guard. -/
def MpmcQueue.dropProducer {T : Type} (q : MpmcQueue T) : MpmcQueue T :=
  { q with metrics := q.metrics.remove_producer }

/-- Embeds MpmcQueue::consumer (rusq.rs lines 219-234). -/
def MpmcQueue.consumer {T : Type} (q : MpmcQueue T) : MpmcQueue T :=
  if q.config.enable_metrics then { q with metrics := q.metrics.add_consumer }
  else q

/-- Embeds Drop for Consumer (rusq.rs lines 527-531): unconditional
decrement. -/
def MpmcQueue.dropConsumer {T : Type} (q : MpmcQueue T) : MpmcQueue T :=
  { q with metrics := q.metrics.remove_consumer }

/-- Embeds MpmcQueue::shutdown (rusq.rs lines 250-252). -/
def MpmcQueue.shutdown {T : Type} (q : MpmcQueue T) : MpmcQueue T :=
  { q with is_shutdown := true }

/-- The four priority bands, used to address the receivers of the queue. -/
inductive Band where
  | critical
  | high
  | normal
  | low
deriving DecidableEq

/-- The receiver channel of a band. -/
def MpmcQueue.bandChan {T : Type} (q : MpmcQueue T) : Band → Chan T
  | Band.critical => q.critical
  | Band.high => q.high
  | Band.normal => q.normal
  | Band.low => q.low

/-- Replace the channel of a band. -/
def MpmcQueue.setBand {T : Type} (q : MpmcQueue T) : Band → Chan T → MpmcQueue T
  | Band.critical, c => { q with critical := c }
  | Band.high, c => { q with high := c }
  | Band.normal, c => { q with normal := c }
  | Band.low, c => { q with low := c }

/-- The band a message of the given priority is routed to (the sender match
in rusq.rs lines 293-298). -/
def Priority.band : Priority → Band
  | Priority.Critical => Band.critical
  | Priority.High => Band.high
  | Priority.Normal => Band.normal
  | Priority.Low => Band.low

/-- Metrics update on a successful receive (the enable_metrics guard around
increment_received). -/
def MpmcQueue.markReceived {T : Type} (q : MpmcQueue T) : MpmcQueue T :=
  if q.config.enable_metrics then
    { q with metrics := q.metrics.increment_received }
  else q

/-- Embeds Producer::send_message (rusq.rs lines 288-310): fail fast on the
shutdown flag, route by priority, try_send, count on success. -/
def send_message {T : Type} (q : MpmcQueue T) (message : Message T) :
    Except RusqError Unit × MpmcQueue T :=
  if q.is_shutdown then (Except.error RusqError.QueueShutdown, q)
  else
    match (q.bandChan message.priority.band).trySend message with
    | TrySendOut.ok c =>
        let q1 := q.setBand message.priority.band c
        let q2 :=
          if q1.config.enable_metrics then
            { q1 with metrics := q1.metrics.increment_sent }
          else q1
        (Except.ok (), q2)
    | TrySendOut.full => (Except.error RusqError.QueueFull, q)
    | TrySendOut.disconnected => (Except.error RusqError.QueueShutdown, q)

/-- Embeds Producer::send_with_priority (rusq.rs lines 282-285); the fresh
message id and timestamp are passed explicitly. -/
def send_with_priority {T : Type} (q : MpmcQueue T) (payload : T)
    (topic : String) (priority : Priority) (id ts : Nat) :
    Except RusqError Unit × MpmcQueue T :=
  send_message q ((Message.new id ts payload topic).with_priority priority)

/-- Embeds Consumer::try_recv (rusq.rs lines 366-415): fail fast on the
shutdown flag, then scan Critical, High, Normal, Low; a Disconnected band
stops the scan with QueueShutdown; all bands Empty yields Empty. -/
def try_recv {T : Type} (q : MpmcQueue T) :
    Except RusqError (Message T) × MpmcQueue T :=
  if q.is_shutdown then (Except.error RusqError.QueueShutdown, q)
  else
    match q.critical.tryRecv with
    | TryRecvOut.ok m c => (Except.ok m, ({ q with critical := c }).markReceived)
    | TryRecvOut.disconnected => (Except.error RusqError.QueueShutdown, q)
    | TryRecvOut.empty =>
      match q.high.tryRecv with
      | TryRecvOut.ok m c => (Except.ok m, ({ q with high := c }).markReceived)
      | TryRecvOut.disconnected => (Except.error RusqError.QueueShutdown, q)
      | TryRecvOut.empty =>
        match q.normal.tryRecv with
        | TryRecvOut.ok m c => (Except.ok m, ({ q with normal := c }).markReceived)
        | TryRecvOut.disconnected => (Except.error RusqError.QueueShutdown, q)
        | TryRecvOut.empty =>
          match q.low.tryRecv with
          | TryRecvOut.ok m c => (Except.ok m, ({ q with low := c }).markReceived)
          | TryRecvOut.disconnected => (Except.error RusqError.QueueShutdown, q)
          | TryRecvOut.empty => (Except.error RusqError.Empty, q)

/-- A crossbeam select recv operation is ready when it can complete without
blocking: a message is buffered, or the channel is disconnected (recv would
return an error immediately). -/
def Chan.isReady {T : Type} (c : Chan T) : Bool :=
  !c.msgs.isEmpty || !c.senderAlive

/-- One select! arm execution inside Consumer::recv_timeout (rusq.rs lines
435-483) for a chosen band.  crossbeam select! picks uniformly at random
among the READY operations, so the chosen band is a parameter; the result is
`none` when the chosen band is not ready (such a choice cannot be selected).
On a ready band the arm either yields the message (counting it) or maps the
receive error to QueueShutdown. -/
def selectOnce {T : Type} (q : MpmcQueue T) (choice : Band) :
    Option (Except RusqError (Message T) × MpmcQueue T) :=
  if (q.bandChan choice).isReady then
    match (q.bandChan choice).tryRecv with
    | TryRecvOut.ok m c => some (Except.ok m, (q.setBand choice c).markReceived)
    | TryRecvOut.disconnected => some (Except.error RusqError.QueueShutdown, q)
    | TryRecvOut.empty => none
  else none

/-- The loop of Consumer::recv_timeout (rusq.rs lines 425-484).  Wall-clock
time is abstracted into an oracle list: each entry is one loop iteration,
`some b` meaning select! executed the arm of band b and `none` meaning the
10 ms default arm fired; an exhausted oracle means the elapsed time reached
the timeout, which the loop reports as Timeout.  The shutdown flag is
re-checked at the top of every iteration as in the source. -/
def recvTimeoutAux {T : Type} :
    List (Option Band) → MpmcQueue T → Except RusqError (Message T) × MpmcQueue T
  | oracle, q =>
    if q.is_shutdown then (Except.error RusqError.QueueShutdown, q)
    else
      match oracle with
      | [] => (Except.error RusqError.Timeout, q)
      | step :: rest =>
        match step with
        | some choice =>
          match selectOnce q choice with
          | some r => r
          | none => recvTimeoutAux rest q
        | none => recvTimeoutAux rest q

/-- Embeds Consumer::recv_timeout (rusq.rs lines 418-485): the entry check of
the shutdown flag followed by the select loop. -/
def recv_timeout {T : Type} (q : MpmcQueue T) (oracle : List (Option Band)) :
    Except RusqError (Message T) × MpmcQueue T :=
  if q.is_shutdown then (Except.error RusqError.QueueShutdown, q)
  else recvTimeoutAux oracle q

/-- Embeds Consumer::nack (rusq.rs lines 493-524): increment the retry
counter (u32, wrapping), count the failure, then either push to the DLQ
(returning the try_send verdict) or count a retry and answer RetryRequired
without touching any band. -/
def nack {T : Type} (q : MpmcQueue T) (message : Message T) :
    Except RusqError Unit × MpmcQueue T :=
  let message1 := { message with retry_count := (message.retry_count + 1) % U32_MOD }
  let q1 :=
    if q.config.enable_metrics then
      { q with metrics := q.metrics.increment_failed }
    else q
  if q1.config.max_retries < message1.retry_count then
    match q1.dlq.trySend message1 with
    | TrySendOut.ok c => (Except.ok (), { q1 with dlq := c })
    | TrySendOut.full => (Except.error RusqError.QueueFull, q1)
    | TrySendOut.disconnected => (Except.error RusqError.QueueShutdown, q1)
  else
    let q2 :=
      if q1.config.enable_metrics then
        { q1 with metrics := q1.metrics.increment_retried }
      else q1
    (Except.error RusqError.RetryRequired, q2)

/-- Specification-shaped priority scan, written from the spec sentence
"attempt Critical, then High, then Normal, then Low; return the first
success; if any band reports disconnected, return Shutdown": walk the bands
in that order; the first buffered message wins; an empty disconnected band
stops the walk with QueueShutdown; otherwise Empty.  Compared with `try_recv`
in the refinement theorem. -/
def chanScanSpec {T : Type} : List (Chan T) → Except RusqError (Message T)
  | [] => Except.error RusqError.Empty
  | c :: rest =>
    match c.msgs with
    | m :: _ => Except.ok m
    | [] =>
      if c.senderAlive then chanScanSpec rest
      else Except.error RusqError.QueueShutdown

/-- The spec-shaped result of one non-blocking receive on the whole queue. -/
def tryRecvSpec {T : Type} (q : MpmcQueue T) : Except RusqError (Message T) :=
  chanScanSpec [q.critical, q.high, q.normal, q.low]

/-- Drain n messages with try_recv, collecting the payloads in order;
draining stops at the first receive that is not ok. -/
def drainPayloads {T : Type} : Nat → MpmcQueue T → List T
  | 0, _ => []
  | n + 1, q =>
    match try_recv q with
    | (Except.ok m, q1) => m.payload :: drainPayloads n q1
    | (Except.error _, _) => []

end Rusq

namespace Exec

/-- Embeds struct TestCase (types.rs lines 3-10). -/
structure TestCase where
  id : Int
  input : String
  expected : Option String
  timeout_ms : Option Nat
deriving DecidableEq

/-- Embeds struct ExecuteRequest (types.rs lines 12-17). -/
structure ExecuteRequest where
  language : String
  code : String
  testcases : List TestCase
deriving DecidableEq

/-- Embeds struct CaseResult (types.rs lines 19-36). -/
structure CaseResult where
  id : Int
  ok : Bool
  passed : Bool
  input : String
  expected : Option String
  stdout : String
  stderr : String
  timed_out : Bool
  duration_ms : Nat
  memory_kb : Nat
  exit_code : Option Int
  term_signal : Option Int
deriving DecidableEq

/-- Embeds enum ExecutionStatus (types.rs lines 38-47). -/
inductive ExecutionStatus where
  | Success
  | Error
  | Timeout
  | CompileError
  | RuntimeError
  | UnsupportedLanguage
deriving DecidableEq

/-- Embeds struct ExecuteResponse (types.rs lines 49-60). -/
structure ExecuteResponse where
  compiled : Bool
  language : String
  status : Option ExecutionStatus
  message : Option String
  results : List CaseResult
  total_duration_ms : Nat
deriving DecidableEq

/-- The observable behaviour of one spawned run-command child for one test
case: the wall-clock instant of its own exit (none when it never
terminates), its exit status and streams, and the extra wall-clock spent in
the kill-and-reap and stream-drain steps.  stdout and stderr are the lossy
UTF-8 decodings the code stores (executor.rs lines 362-365). -/
structure ChildRun where
  exitTimeMs : Option Nat
  exitSuccess : Bool
  exitCode : Option Int
  reapedSuccess : Bool
  reapedExitCode : Option Int
  stdout : String
  stderr : String
  reapMs : Nat
  drainMs : Nat
deriving DecidableEq

/-- Embeds the per-test-case body of execute_request (executor.rs lines
315-392).  The select between child.wait and the timeout sleep resolves to
the wait branch exactly when the child exits strictly before the deadline;
on the sleep branch timed_out is set, the child is killed and the reaped
status is recorded.  Then duration is read, ok is success && not timed_out,
and passed compares captured stdout with the expected field, false when the
field is absent (executor.rs lines 369-391). -/
def runCase (tc : TestCase) (child : ChildRun) : CaseResult :=
  let timeout_ms := tc.timeout_ms.getD 5000
  let timed_out : Bool :=
    match child.exitTimeMs with
    | some t => decide (timeout_ms ≤ t)
    | none => true
  let success : Bool := if timed_out then child.reapedSuccess else child.exitSuccess
  let exit_code : Option Int :=
    if timed_out then child.reapedExitCode else child.exitCode
  let duration_ms : Nat :=
    match child.exitTimeMs with
    | some t => if timeout_ms ≤ t then timeout_ms + child.reapMs + child.drainMs
                else t + child.drainMs
    | none => timeout_ms + child.reapMs + child.drainMs
  let ok := success && !timed_out
  let passed :=
    match tc.expected with
    | some exp => child.stdout == exp
    | none => false
  { id := tc.id, ok := ok, passed := passed, input := tc.input,
    expected := tc.expected, stdout := child.stdout, stderr := child.stderr,
    timed_out := timed_out, duration_ms := duration_ms, memory_kb := 0,
    exit_code := exit_code, term_signal := none }

/-- Embeds enum JobState (executor.rs lines 61-67). -/
inductive JobState where
  | Queued
  | Running
  | Completed (resp : ExecuteResponse)
  | Error (msg : String)
deriving DecidableEq

/-- A terminal registry state: Completed or Error. -/
def JobState.isTerminal : JobState → Prop
  | JobState.Completed _ => True
  | JobState.Error _ => True
  | _ => False

/-- HashMap::insert on the job registry, embedded on an association list:
replace the binding when the key is present, append it otherwise. -/
def jobsInsert (jobs : List (Nat × JobState)) (id : Nat) (st : JobState) :
    List (Nat × JobState) :=
  match jobs with
  | [] => [(id, st)]
  | (k, v) :: rest =>
    if k = id then (id, st) :: rest else (k, v) :: jobsInsert rest id st

/-- HashMap::get on the job registry. -/
def jobsGet (jobs : List (Nat × JobState)) (id : Nat) : Option JobState :=
  match jobs with
  | [] => none
  | (k, v) :: rest => if k = id then some v else jobsGet rest id

/-- The mutable part of AppState (executor.rs lines 26-34) that the
admission handler touches: the available-language set, the job registry,
the id counter and the queue. -/
structure AppState where
  available : List String
  jobs : List (Nat × JobState)
  next_id : Nat
  queue : Rusq.MpmcQueue (Nat × ExecuteRequest)

/-- The three HTTP replies enqueue_handler can produce. -/
inductive EnqueueReply where
  | badRequest (error : String)
  | serverError (error : String)
  | accepted (id : Nat)
deriving DecidableEq

/-- Embeds enqueue_handler (executor.rs lines 212-250): reject an
unavailable language with 400; otherwise allocate the id, insert Queued,
create a producer handle, send the message at Normal priority, and on a
send error overwrite the registry entry with Error("queue error: {:?}")
and answer 500; on success answer 202.  The producer handle created in the
handler is dropped when the handler returns (both paths).  The fresh
message id and timestamp are passed explicitly. -/
def enqueue_handler (st : AppState) (req : ExecuteRequest) (msgId msgTs : Nat) :
    EnqueueReply × AppState :=
  if !(st.available.contains req.language) then
    (EnqueueReply.badRequest ("Unsupported or unavailable language: " ++ req.language), st)
  else
    let id := st.next_id
    let st1 := { st with next_id := st.next_id + 1,
                         jobs := jobsInsert st.jobs id JobState.Queued }
    let q := st1.queue.producer
    let message :=
      (Rusq.Message.new msgId msgTs (id, req) "execution").with_priority
        Rusq.Priority.Normal
    match Rusq.send_message q message with
    | (Except.error e, q1) =>
        let st2 := { st1 with
          queue := q1.dropProducer,
          jobs := jobsInsert st1.jobs id
            (JobState.Error ("queue error: " ++ e.debugStr)) }
        (EnqueueReply.serverError "Failed to enqueue job", st2)
    | (Except.ok _, q1) =>
        (EnqueueReply.accepted id, { st1 with queue := q1.dropProducer })

/-- Program counter of the admission handler for one job id (executor.rs
lines 229-249): before the Queued insert, between the insert and the send,
and returned. -/
inductive HandlerPc where
  | hStart
  | hInserted
  | hDone
deriving DecidableEq

/-- Program counter of the worker that handles the message of this job id
(executor.rs lines 158-198): not yet received, received, Running written,
terminal state written. -/
inductive WorkerPc where
  | wIdle
  | wGot
  | wRunning
  | wDone
deriving DecidableEq

/-- The state of one job id across the admission handler, the queue and the
worker pool: both program counters, the registry entry of the id, and
whether the message of the id is sitting in a queue band. -/
structure JobSys where
  hpc : HandlerPc
  wpc : WorkerPc
  reg : Option JobState
  inQueue : Bool

/-- The interleaved atomic steps on one job id.  Handler steps (executor.rs
lines 229-249): insert Queued under the write lock; send_message succeeding
(the message becomes available to workers) or failing (the entry is
overwritten with Error and 500 is returned).  Worker steps (executor.rs
lines 158-184): receive the message (a channel delivers it exactly once),
insert Running under the write lock, then insert the Completed or the Error
outcome under the write lock.  Ids are allocated by atomic increment, so no
other operation ever writes this registry key. -/
inductive JobStep : JobSys → JobSys → Prop where
  | insertQueued (s : JobSys) (h : s.hpc = HandlerPc.hStart) :
      JobStep s { s with hpc := HandlerPc.hInserted, reg := some JobState.Queued }
  | sendOk (s : JobSys) (h : s.hpc = HandlerPc.hInserted) :
      JobStep s { s with hpc := HandlerPc.hDone, inQueue := true }
  | sendFail (s : JobSys) (e : String) (h : s.hpc = HandlerPc.hInserted) :
      JobStep s { s with hpc := HandlerPc.hDone, reg := some (JobState.Error e) }
  | recvMsg (s : JobSys) (h1 : s.wpc = WorkerPc.wIdle) (h2 : s.inQueue = true) :
      JobStep s { s with wpc := WorkerPc.wGot, inQueue := false }
  | markRunning (s : JobSys) (h : s.wpc = WorkerPc.wGot) :
      JobStep s { s with wpc := WorkerPc.wRunning, reg := some JobState.Running }
  | finishOk (s : JobSys) (r : ExecuteResponse) (h : s.wpc = WorkerPc.wRunning) :
      JobStep s { s with wpc := WorkerPc.wDone, reg := some (JobState.Completed r) }
  | finishErr (s : JobSys) (e : String) (h : s.wpc = WorkerPc.wRunning) :
      JobStep s { s with wpc := WorkerPc.wDone, reg := some (JobState.Error e) }

/-- Before admission: no registry entry, no message, both threads at the
start. -/
def JobSys.init : JobSys :=
  { hpc := HandlerPc.hStart, wpc := WorkerPc.wIdle, reg := none, inQueue := false }

/-- The states reachable from the initial state by interleaved steps. -/
inductive Reachable : JobSys → Prop where
  | init : Reachable JobSys.init
  | step {s s1 : JobSys} : Reachable s → JobStep s s1 → Reachable s1

/-- Inductive invariant tying the registry entry of a job id to the two
program counters. -/
def JobInv (s : JobSys) : Prop :=
  (s.hpc = HandlerPc.hStart →
    s.reg = none ∧ s.wpc = WorkerPc.wIdle ∧ s.inQueue = false) ∧
  (s.hpc = HandlerPc.hInserted →
    s.reg = some JobState.Queued ∧ s.wpc = WorkerPc.wIdle ∧ s.inQueue = false) ∧
  (s.inQueue = true →
    s.hpc = HandlerPc.hDone ∧ s.wpc = WorkerPc.wIdle ∧ s.reg = some JobState.Queued) ∧
  (s.wpc = WorkerPc.wGot →
    s.hpc = HandlerPc.hDone ∧ s.reg = some JobState.Queued ∧ s.inQueue = false) ∧
  (s.wpc = WorkerPc.wRunning →
    s.hpc = HandlerPc.hDone ∧ s.reg = some JobState.Running ∧ s.inQueue = false) ∧
  (s.wpc = WorkerPc.wDone →
    (∃ r, s.reg = some (JobState.Completed r)) ∨ (∃ e, s.reg = some (JobState.Error e))) ∧
  (∀ st, s.reg = some st → st.isTerminal →
    s.hpc = HandlerPc.hDone ∧
    (s.wpc = WorkerPc.wDone ∨ (s.wpc = WorkerPc.wIdle ∧ s.inQueue = false))) ∧
  (s.reg = some JobState.Running →
    s.wpc = WorkerPc.wRunning ∧ s.hpc = HandlerPc.hDone)

end Exec

namespace Monitor

/-- Substring test on character lists: the needle occurs contiguously in the
haystack, as str::contains does. -/
def containsSub (hay pat : List Char) : Bool :=
  match hay with
  | [] => pat.isEmpty
  | _ :: rest => pat.isPrefixOf hay || containsSub rest pat

/-- Substring test on strings (str::contains on &str). -/
def strContains (hay pat : String) : Bool :=
  containsSub hay.data pat.data

/-- Embeds detect_forbidden_processes (monitor.rs lines 369-400).  The
process table snapshot and the platform topmost enumeration are impure, so
the candidate name lists are arguments.  The Rust code inserts the original
process name into a HashSet whenever its lowercased form contains some
lowercased denylist pattern, then collects and sorts; a HashSet holds each
name once, so the embedding filters the candidates, removes duplicates and
sorts lexicographically. -/
def detect_forbidden_processes (forbidden_list process_names topmost_names : List String)
    (include_topmost : Bool) : List String :=
  let all_processes := process_names ++ (if include_topmost then topmost_names else [])
  let detected :=
    (all_processes.filter (fun p =>
      forbidden_list.any (fun f => strContains p.toLower f.toLower))).dedup
  List.insertionSort (fun a b => a ≤ b) detected

end Monitor

/-! Concrete instances used by counterexamples and witnesses. -/

/-- A queue holding one Critical and one Low message, both bands ready. -/
def c1_queue : Rusq.MpmcQueue Nat :=
  let q0 := Rusq.MpmcQueue.new Nat Rusq.RusqConfig.default
  let q1 := (Rusq.send_with_priority q0 100 "t" Rusq.Priority.Critical 0 0).2
  (Rusq.send_with_priority q1 7 "t" Rusq.Priority.Low 1 1).2

/-- The Low message sitting in the low band of `c1_queue`. -/
def c1_low_message : Rusq.Message Nat :=
  (Rusq.Message.new 1 1 7 "t").with_priority Rusq.Priority.Low

/-- The spec scenario test case: empty input, expected empty string, 200 ms
timeout. -/
def c3_case : Exec.TestCase :=
  { id := 1, input := "", expected := some "", timeout_ms := some 200 }

/-- A child that never terminates on its own and writes nothing. -/
def c3_child : Exec.ChildRun :=
  { exitTimeMs := none, exitSuccess := true, exitCode := none,
    reapedSuccess := false, reapedExitCode := none, stdout := "", stderr := "",
    reapMs := 5, drainMs := 0 }

/-- Admission state whose queue is already shut down, so the send inside the
handler fails. -/
def c4_state : Exec.AppState :=
  { available := ["python3"], jobs := [], next_id := 1,
    queue := (Rusq.MpmcQueue.new (Nat × Exec.ExecuteRequest)
      Rusq.RusqConfig.default).shutdown }

/-- A well-formed request for an available language. -/
def c4_req : Exec.ExecuteRequest :=
  { language := "python3", code := "print(1)", testcases := [] }

/-- A queue shut down while one message is still buffered in the Normal
band. -/
def c5_queue : Rusq.MpmcQueue Nat :=
  ((Rusq.send_with_priority (Rusq.MpmcQueue.new Nat Rusq.RusqConfig.default)
    42 "t" Rusq.Priority.Normal 0 0).2).shutdown

/-- The spec drain scenario: three Low sends, then one Critical, then one
Normal. -/
def c6_queue : Rusq.MpmcQueue Nat :=
  let q0 := Rusq.MpmcQueue.new Nat Rusq.RusqConfig.default
  let q1 := (Rusq.send_with_priority q0 1 "t" Rusq.Priority.Low 0 0).2
  let q2 := (Rusq.send_with_priority q1 2 "t" Rusq.Priority.Low 1 0).2
  let q3 := (Rusq.send_with_priority q2 3 "t" Rusq.Priority.Low 2 0).2
  let q4 := (Rusq.send_with_priority q3 4 "t" Rusq.Priority.Critical 3 0).2
  (Rusq.send_with_priority q4 5 "t" Rusq.Priority.Normal 4 0).2

/-- A concrete execute response, used as the worker outcome in the registry
witness. -/
def c8_resp : Exec.ExecuteResponse :=
  { compiled := true, language := "python3", status := some Exec.ExecutionStatus.Success,
    message := none, results := [], total_duration_ms := 0 }

/-! Helper lemmas shared by the claim theorems. -/

/-- jobsGet after jobsInsert: the inserted key reads back the inserted
state, every other key is unchanged. -/
theorem jobsGet_jobsInsert (jobs : List (Nat × Exec.JobState)) (id k : Nat)
    (st : Exec.JobState) :
    Exec.jobsGet (Exec.jobsInsert jobs id st) k =
      if id = k then some st else Exec.jobsGet jobs k := by
  induction jobs with
  | nil => rfl
  | cons hd tl ih =>
    obtain ⟨k0, v0⟩ := hd
    by_cases h0 : k0 = id
    · subst h0
      by_cases h : k0 = k <;> simp [Exec.jobsInsert, Exec.jobsGet, h]
    · simp only [Exec.jobsInsert, if_neg h0, Exec.jobsGet]
      by_cases h1 : k0 = k
      · have h2 : ¬ id = k := fun hh => h0 (h1.trans hh.symm)
        rw [if_pos h1, if_neg h2, if_pos h1]
      · rw [if_neg h1, ih]
        by_cases h2 : id = k
        · rw [if_pos h2, if_pos h2]
        · rw [if_neg h2, if_neg h2, if_neg h1]

/-- Unfolding lemma: the passed field of a case verdict. -/
theorem runCase_passed (tc : Exec.TestCase) (child : Exec.ChildRun) :
    (Exec.runCase tc child).passed =
      (match tc.expected with
       | some exp => child.stdout == exp
       | none => false) := rfl

/-- Unfolding lemma: the stored stdout of a case verdict is the captured
child stdout. -/
theorem runCase_stdout (tc : Exec.TestCase) (child : Exec.ChildRun) :
    (Exec.runCase tc child).stdout = child.stdout := rfl

/-- The passed flag of a case verdict is exactly the equality of the
captured stdout with the expected field. -/
theorem runCase_passed_iff (tc : Exec.TestCase) (child : Exec.ChildRun) :
    (Exec.runCase tc child).passed = true ↔ tc.expected = some child.stdout := by
  rw [runCase_passed]
  cases h : tc.expected with
  | none => simp
  | some exp =>
    simp only [beq_iff_eq, Option.some.injEq]
    exact eq_comm

/-- Decrement after increment on a wrapping u64 gauge is the identity below
the modulus. -/
theorem u64Decr_u64Incr (g : Nat) (h : g < Rusq.U64_MOD) :
    Rusq.u64Decr (Rusq.u64Incr g) = g := by
  unfold Rusq.u64Incr Rusq.u64Decr
  rw [Nat.mod_add_mod]
  have h0 : (1 : Nat) ≤ Rusq.U64_MOD := by decide
  have h1 : g + 1 + (Rusq.U64_MOD - 1) = g + Rusq.U64_MOD := by omega
  rw [h1, Nat.add_mod_right, Nat.mod_eq_of_lt h]

/-! The claim theorems. -/

/-- C2: for every test case executed by the runner, the reported passed
flag is true iff the expected field is present and the captured stdout
equals it, by exact string equality with no trimming or newline
normalisation; when expected is absent, passed is false. -/
theorem c2_passed_iff_expected_matches_stdout (tc : Exec.TestCase)
    (child : Exec.ChildRun) :
    ((Exec.runCase tc child).passed = true ↔
      tc.expected = some (Exec.runCase tc child).stdout) ∧
    (tc.expected = none → (Exec.runCase tc child).passed = false) := by
  constructor
  · rw [runCase_stdout]
    exact runCase_passed_iff tc child
  · intro h
    rw [runCase_passed, h]

/-- C2 witness: a case with no expected field is reported passed = false. -/
theorem c2_passed_iff_expected_matches_stdout_witness :
    (Exec.runCase { id := 1, input := "", expected := none, timeout_ms := none }
      { exitTimeMs := some 1, exitSuccess := true, exitCode := some 0,
        reapedSuccess := false, reapedExitCode := none, stdout := "x",
        stderr := "", reapMs := 0, drainMs := 0 }).passed = false :=
  (c2_passed_iff_expected_matches_stdout
    { id := 1, input := "", expected := none, timeout_ms := none }
    { exitTimeMs := some 1, exitSuccess := true, exitCode := some 0,
      reapedSuccess := false, reapedExitCode := none, stdout := "x",
      stderr := "", reapMs := 0, drainMs := 0 }).2 rfl

/-- C3 counterexample: the spec scenario (expected present as the empty
string, 200 ms timeout, child that never terminates and writes nothing)
produces timed_out = true, ok = false and duration at least 200 ms, but the
case IS reported passed, because the code computes passed from the
expected/stdout comparison alone, never consulting timed_out. -/
theorem c3_timed_out_passed_counterexample :
    (Exec.runCase c3_case c3_child).timed_out = true ∧
    (Exec.runCase c3_case c3_child).ok = false ∧
    200 ≤ (Exec.runCase c3_case c3_child).duration_ms ∧
    (Exec.runCase c3_case c3_child).passed = true := by
  refine ⟨rfl, rfl, by decide, by decide⟩

/-- C3 amended: a child that never terminates with a 200 ms case timeout
yields timed_out = true, ok = false and duration_ms at least 200; passed is
computed solely as expected-present-and-equal-to-captured-stdout, so a
timed-out case can still be reported passed. -/
theorem c3_timeout_verdict_amended (tc : Exec.TestCase) (child : Exec.ChildRun)
    (ht : tc.timeout_ms = some 200) (hc : child.exitTimeMs = none) :
    (Exec.runCase tc child).timed_out = true ∧
    (Exec.runCase tc child).ok = false ∧
    200 ≤ (Exec.runCase tc child).duration_ms ∧
    ((Exec.runCase tc child).passed = true ↔ tc.expected = some child.stdout) := by
  refine ⟨?_, ?_, ?_, runCase_passed_iff tc child⟩
  · simp only [Exec.runCase, hc]
  · simp [Exec.runCase, hc]
  · simp only [Exec.runCase, hc, ht, Option.getD_some]
    omega

/-- C3 amended witness at the concrete scenario inputs. -/
theorem c3_timeout_verdict_amended_witness :
    (Exec.runCase c3_case c3_child).timed_out = true ∧
    (Exec.runCase c3_case c3_child).ok = false :=
  ⟨(c3_timeout_verdict_amended c3_case c3_child rfl rfl).1,
   (c3_timeout_verdict_amended c3_case c3_child rfl rfl).2.1⟩

/-- C5 counterexample: a queue shut down with a message still buffered in
the Normal band; both try_recv and recv_timeout fail with QueueShutdown
instead of draining the in-flight message. -/
theorem c5_shutdown_drain_counterexample :
    c5_queue.normal.msgs.length = 1 ∧
    c5_queue.is_shutdown = true ∧
    (Rusq.try_recv c5_queue).1 = Except.error Rusq.RusqError.QueueShutdown ∧
    (Rusq.recv_timeout c5_queue [some Rusq.Band.normal]).1 =
      Except.error Rusq.RusqError.QueueShutdown := by
  refine ⟨rfl, rfl, rfl, rfl⟩

/-- C5 amended: once the shutdown flag is set, every send fails with
QueueShutdown AND every consumer receive (try_recv as well as recv_timeout,
whatever the select schedule) fails with QueueShutdown immediately, so
buffered messages are not drainable through consumer handles. -/
theorem c5_shutdown_behaviour (T : Type) (q : Rusq.MpmcQueue T)
    (m : Rusq.Message T) (oracle : List (Option Rusq.Band))
    (h : q.is_shutdown = true) :
    (Rusq.send_message q m).1 = Except.error Rusq.RusqError.QueueShutdown ∧
    (Rusq.try_recv q).1 = Except.error Rusq.RusqError.QueueShutdown ∧
    (Rusq.recv_timeout q oracle).1 = Except.error Rusq.RusqError.QueueShutdown := by
  refine ⟨?_, ?_, ?_⟩ <;>
    simp [Rusq.send_message, Rusq.try_recv, Rusq.recv_timeout, h]

/-- C5 amended witness at a concrete shut-down queue. -/
theorem c5_shutdown_behaviour_witness :
    (Rusq.try_recv c5_queue).1 = Except.error Rusq.RusqError.QueueShutdown :=
  (c5_shutdown_behaviour Nat c5_queue (Rusq.Message.new 9 9 0 "t") [] rfl).2.1

/-- C10: with enable_metrics = false, creating a producer or consumer
handle leaves the corresponding gauge untouched while dropping the handle
still decrements it with u64 wrap-around, so one create-then-drop starting
from gauge 0 leaves 2 ^ 64 - 1 = 18446744073709551615 in the snapshot; with
enable_metrics = true the create-then-drop returns the gauge to its prior
value. -/
theorem c10_gauge_decrement_wraps (T : Type) (q : Rusq.MpmcQueue T)
    (hp : q.metrics.active_producers < Rusq.U64_MOD)
    (hc : q.metrics.active_consumers < Rusq.U64_MOD) :
    (q.config.enable_metrics = false →
      (Rusq.MpmcQueue.producer q).metrics.active_producers =
        q.metrics.active_producers ∧
      (Rusq.MpmcQueue.consumer q).metrics.active_consumers =
        q.metrics.active_consumers ∧
      ((Rusq.MpmcQueue.dropProducer
          (Rusq.MpmcQueue.producer q)).metrics.snapshot).active_producers =
        (q.metrics.active_producers + (Rusq.U64_MOD - 1)) % Rusq.U64_MOD ∧
      ((Rusq.MpmcQueue.dropConsumer
          (Rusq.MpmcQueue.consumer q)).metrics.snapshot).active_consumers =
        (q.metrics.active_consumers + (Rusq.U64_MOD - 1)) % Rusq.U64_MOD ∧
      (q.metrics.active_producers = 0 →
        ((Rusq.MpmcQueue.dropProducer
            (Rusq.MpmcQueue.producer q)).metrics.snapshot).active_producers =
          18446744073709551615)) ∧
    (q.config.enable_metrics = true →
      ((Rusq.MpmcQueue.dropProducer
          (Rusq.MpmcQueue.producer q)).metrics.snapshot).active_producers =
        q.metrics.active_producers ∧
      ((Rusq.MpmcQueue.dropConsumer
          (Rusq.MpmcQueue.consumer q)).metrics.snapshot).active_consumers =
        q.metrics.active_consumers) := by
  constructor
  · intro hm
    refine ⟨?_, ?_, ?_, ?_, ?_⟩ <;>
      simp [Rusq.MpmcQueue.producer, Rusq.MpmcQueue.consumer,
        Rusq.MpmcQueue.dropProducer, Rusq.MpmcQueue.dropConsumer,
        Rusq.RusqMetrics.snapshot, Rusq.RusqMetrics.remove_producer,
        Rusq.RusqMetrics.remove_consumer, Rusq.u64Decr, hm]
    intro h0
    rw [h0]
    decide
  · intro hm
    constructor <;>
      simp [Rusq.MpmcQueue.producer, Rusq.MpmcQueue.consumer,
        Rusq.MpmcQueue.dropProducer, Rusq.MpmcQueue.dropConsumer,
        Rusq.RusqMetrics.snapshot, Rusq.RusqMetrics.remove_producer,
        Rusq.RusqMetrics.remove_consumer, Rusq.RusqMetrics.add_producer,
        Rusq.RusqMetrics.add_consumer, hm, u64Decr_u64Incr, hp, hc]

/-- C10 witness: a fresh queue with metrics disabled; one producer
create-then-drop leaves the wrapped gauge value. -/
theorem c10_gauge_decrement_wraps_witness :
    ((Rusq.MpmcQueue.dropProducer (Rusq.MpmcQueue.producer
        (Rusq.MpmcQueue.new Nat { Rusq.RusqConfig.default with
          enable_metrics := false }))).metrics.snapshot).active_producers =
      18446744073709551615 :=
  (((c10_gauge_decrement_wraps Nat
      (Rusq.MpmcQueue.new Nat { Rusq.RusqConfig.default with
        enable_metrics := false })
      (by decide) (by decide)).1 rfl).2.2.2.2) rfl

/-- Creating a producer handle changes only the metrics of the queue
state. -/
theorem producer_proj (T : Type) (q : Rusq.MpmcQueue T) :
    (Rusq.MpmcQueue.producer q).critical = q.critical ∧
    (Rusq.MpmcQueue.producer q).high = q.high ∧
    (Rusq.MpmcQueue.producer q).normal = q.normal ∧
    (Rusq.MpmcQueue.producer q).low = q.low ∧
    (Rusq.MpmcQueue.producer q).dlq = q.dlq ∧
    (Rusq.MpmcQueue.producer q).config = q.config ∧
    (Rusq.MpmcQueue.producer q).is_shutdown = q.is_shutdown := by
  unfold Rusq.MpmcQueue.producer
  split <;> exact ⟨rfl, rfl, rfl, rfl, rfl, rfl, rfl⟩

/-- Dropping a producer handle changes only the metrics of the queue
state. -/
theorem dropProducer_proj (T : Type) (q : Rusq.MpmcQueue T) :
    (Rusq.MpmcQueue.dropProducer q).critical = q.critical ∧
    (Rusq.MpmcQueue.dropProducer q).high = q.high ∧
    (Rusq.MpmcQueue.dropProducer q).normal = q.normal ∧
    (Rusq.MpmcQueue.dropProducer q).low = q.low ∧
    (Rusq.MpmcQueue.dropProducer q).is_shutdown = q.is_shutdown := by
  unfold Rusq.MpmcQueue.dropProducer
  exact ⟨rfl, rfl, rfl, rfl, rfl⟩

/-- C7: nack increments the retry counter by one and appends the message to
the dead-letter queue iff the incremented count exceeds max_retries
(default 3), returning ok in that case; otherwise it returns RetryRequired;
in both cases no priority band is touched. -/
theorem c7_nack_dead_letter_bound (T : Type) (q : Rusq.MpmcQueue T)
    (m : Rusq.Message T) (hcap : q.dlq.capacity = none)
    (halive : q.dlq.recvAlive = true)
    (hrc : m.retry_count + 1 < Rusq.U32_MOD) :
    ((Rusq.nack q m).2.critical = q.critical ∧
     (Rusq.nack q m).2.high = q.high ∧
     (Rusq.nack q m).2.normal = q.normal ∧
     (Rusq.nack q m).2.low = q.low) ∧
    (q.config.max_retries < m.retry_count + 1 →
      (Rusq.nack q m).1 = Except.ok () ∧
      (Rusq.nack q m).2.dlq.msgs =
        q.dlq.msgs ++ [{ m with retry_count := m.retry_count + 1 }]) ∧
    (¬ q.config.max_retries < m.retry_count + 1 →
      (Rusq.nack q m).1 = Except.error Rusq.RusqError.RetryRequired ∧
      (Rusq.nack q m).2.dlq.msgs = q.dlq.msgs) ∧
    Rusq.RusqConfig.default.max_retries = 3 := by
  have hmod : (m.retry_count + 1) % Rusq.U32_MOD = m.retry_count + 1 :=
    Nat.mod_eq_of_lt hrc
  refine ⟨?_, ?_, ?_, rfl⟩
  · cases hm : q.config.enable_metrics <;>
      by_cases hgt : q.config.max_retries < m.retry_count + 1 <;>
        simp [Rusq.nack, hmod, hm, hgt, Rusq.Chan.trySend, Rusq.Chan.isFull,
          hcap, halive]
  · intro h
    cases hm : q.config.enable_metrics <;>
      simp [Rusq.nack, hmod, hm, h, Rusq.Chan.trySend, Rusq.Chan.isFull,
        hcap, halive]
  · intro h
    cases hm : q.config.enable_metrics <;>
      simp [Rusq.nack, hmod, hm, h, Rusq.Chan.trySend, Rusq.Chan.isFull,
        hcap, halive]

/-- C7 witness: a fresh default queue and a message with three prior
retries; the fourth nack exceeds max_retries = 3 and dead-letters it. -/
theorem c7_nack_dead_letter_bound_witness :
    (Rusq.nack (Rusq.MpmcQueue.new Nat Rusq.RusqConfig.default)
        { Rusq.Message.new 0 0 5 "t" with retry_count := 3 }).1 = Except.ok () :=
  ((c7_nack_dead_letter_bound Nat (Rusq.MpmcQueue.new Nat Rusq.RusqConfig.default)
      { Rusq.Message.new 0 0 5 "t" with retry_count := 3 }
      rfl rfl (by decide)).2.1 (by decide)).1

/-- C6: on a queue that is not shut down, try_recv implements the
spec-shaped priority scan (Critical, then High, then Normal, then Low,
first buffered message wins; an empty disconnected band stops the scan with
QueueShutdown; all bands empty and alive yields Empty); consequently a
single consumer draining after sends of three Low, one Critical and one
Normal message receives the payloads in the order Critical, Normal, Low,
Low, Low. -/
theorem c6_try_recv_priority_scan :
    (∀ (T : Type) (q : Rusq.MpmcQueue T), q.is_shutdown = false →
      (Rusq.try_recv q).1 = Rusq.tryRecvSpec q) ∧
    Rusq.drainPayloads 5 c6_queue = [4, 5, 1, 2, 3] := by
  constructor
  · intro T q h
    cases hcm : q.critical.msgs <;> cases hca : q.critical.senderAlive <;>
      cases hhm : q.high.msgs <;> cases hha : q.high.senderAlive <;>
        cases hnm : q.normal.msgs <;> cases hna : q.normal.senderAlive <;>
          cases hlm : q.low.msgs <;> cases hla : q.low.senderAlive <;>
            simp [Rusq.try_recv, Rusq.tryRecvSpec, Rusq.chanScanSpec,
              Rusq.Chan.tryRecv, h, hcm, hca, hhm, hha, hnm, hna, hlm, hla]
  · rfl

/-- C6 witness at the concrete drain scenario queue. -/
theorem c6_try_recv_priority_scan_witness :
    (Rusq.try_recv c6_queue).1 = Rusq.tryRecvSpec c6_queue :=
  c6_try_recv_priority_scan.1 Nat c6_queue rfl

/-- C1 (divergence demonstration): with one Critical and one Low message
buffered, the Low select arm is ready, so the crossbeam select inside
recv_timeout is allowed to execute it; the call then returns the Low
message although a Critical message is simultaneously available. -/
theorem c1_recv_timeout_priority_violation :
    c1_queue.critical.msgs.length = 1 ∧
    (c1_queue.bandChan Rusq.Band.low).isReady = true ∧
    (Rusq.recv_timeout c1_queue [some Rusq.Band.low]).1 =
      Except.ok c1_low_message ∧
    c1_low_message.priority = Rusq.Priority.Low := by
  exact ⟨rfl, rfl, rfl, rfl⟩

/-- C4 counterexample: admission against a shut-down queue answers the 500
error AND leaves an Error entry for the allocated id in the registry, so
the registry is not left as it was before the request. -/
theorem c4_enqueue_failure_counterexample :
    (Exec.enqueue_handler c4_state c4_req 0 0).1 =
      Exec.EnqueueReply.serverError "Failed to enqueue job" ∧
    Exec.jobsGet (Exec.enqueue_handler c4_state c4_req 0 0).2.jobs 1 =
      some (Exec.JobState.Error "queue error: QueueShutdown") := by
  exact ⟨by decide, by decide⟩

/-- C4 amended: when the queue rejects the send (shutdown flag set), the
handler answers 500 with the fixed error body, no message is enqueued into
any band, and the registry ends with an Error entry under the allocated id
(briefly Queued in between); all other registry keys are unchanged. -/
theorem c4_enqueue_reject_pollutes_registry (st : Exec.AppState)
    (req : Exec.ExecuteRequest) (msgId msgTs : Nat)
    (hav : st.available.contains req.language = true)
    (hsd : st.queue.is_shutdown = true) :
    (Exec.enqueue_handler st req msgId msgTs).1 =
      Exec.EnqueueReply.serverError "Failed to enqueue job" ∧
    Exec.jobsGet (Exec.enqueue_handler st req msgId msgTs).2.jobs st.next_id =
      some (Exec.JobState.Error "queue error: QueueShutdown") ∧
    (∀ k, ¬ st.next_id = k →
      Exec.jobsGet (Exec.enqueue_handler st req msgId msgTs).2.jobs k =
        Exec.jobsGet st.jobs k) ∧
    (Exec.enqueue_handler st req msgId msgTs).2.queue.critical.msgs =
      st.queue.critical.msgs ∧
    (Exec.enqueue_handler st req msgId msgTs).2.queue.high.msgs =
      st.queue.high.msgs ∧
    (Exec.enqueue_handler st req msgId msgTs).2.queue.normal.msgs =
      st.queue.normal.msgs ∧
    (Exec.enqueue_handler st req msgId msgTs).2.queue.low.msgs =
      st.queue.low.msgs := by
  have hps : (Rusq.MpmcQueue.producer st.queue).is_shutdown = true := by
    rw [(producer_proj _ st.queue).2.2.2.2.2.2]
    exact hsd
  simp only [Exec.enqueue_handler, hav, Bool.not_true, Bool.false_eq_true,
    if_false, Rusq.send_message, hps, if_true]
  refine ⟨?_, ?_, ?_, ?_, ?_, ?_, ?_⟩
  · trivial
  · rw [jobsGet_jobsInsert, if_pos rfl]
    rfl
  · intro k hk
    rw [jobsGet_jobsInsert, if_neg hk, jobsGet_jobsInsert, if_neg hk]
  · rw [(dropProducer_proj _ _).1, (producer_proj _ st.queue).1]
  · rw [(dropProducer_proj _ _).2.1, (producer_proj _ st.queue).2.1]
  · rw [(dropProducer_proj _ _).2.2.1, (producer_proj _ st.queue).2.2.1]
  · rw [(dropProducer_proj _ _).2.2.2.1, (producer_proj _ st.queue).2.2.2.1]

/-- C4 amended witness at the concrete shut-down admission state. -/
theorem c4_enqueue_reject_pollutes_registry_witness :
    Exec.jobsGet (Exec.enqueue_handler c4_state c4_req 0 0).2.jobs
        c4_state.next_id =
      some (Exec.JobState.Error "queue error: QueueShutdown") :=
  (c4_enqueue_reject_pollutes_registry c4_state c4_req 0 0 (by decide) rfl).2.1

/-- C9: a candidate process name is reported iff its lowercased form
contains the lowercased form of some denylist pattern as a substring, and
the returned list is deduplicated and sorted lexicographically. -/
theorem c9_detect_matches_dedup_sorted
    (forbidden_list process_names topmost_names : List String)
    (include_topmost : Bool) :
    (∀ P, P ∈ Monitor.detect_forbidden_processes forbidden_list process_names
        topmost_names include_topmost ↔
      (P ∈ process_names ++ (if include_topmost then topmost_names else []) ∧
        ∃ Q ∈ forbidden_list, Monitor.strContains P.toLower Q.toLower = true)) ∧
    (Monitor.detect_forbidden_processes forbidden_list process_names
      topmost_names include_topmost).Nodup ∧
    List.Sorted (fun a b : String => a ≤ b)
      (Monitor.detect_forbidden_processes forbidden_list process_names
        topmost_names include_topmost) := by
  unfold Monitor.detect_forbidden_processes
  refine ⟨?_, ?_, ?_⟩
  · intro P
    rw [(List.perm_insertionSort _ _).mem_iff]
    simp [List.mem_dedup, List.mem_filter, List.any_eq_true]
    rw [or_and_right]
  · exact ((List.perm_insertionSort _ _).nodup_iff).mpr (List.nodup_dedup _)
  · exact List.sorted_insertionSort _ _

/-- The initial state satisfies the job registry invariant. -/
theorem jobInv_init : Exec.JobInv Exec.JobSys.init := by
  simp [Exec.JobInv, Exec.JobSys.init]

/-- Every interleaved step preserves the job registry invariant. -/
theorem jobInv_step {s s1 : Exec.JobSys} (hinv : Exec.JobInv s)
    (hs : Exec.JobStep s s1) : Exec.JobInv s1 := by
  obtain ⟨hA, hB, hC, hD, hE, hF, hG, hH⟩ := hinv
  cases hs with
  | insertQueued h =>
    obtain ⟨hreg, hw, hin⟩ := hA h
    simp [Exec.JobInv, Exec.JobState.isTerminal, hw, hin]
  | sendOk h =>
    obtain ⟨hreg, hw, hin⟩ := hB h
    simp [Exec.JobInv, Exec.JobState.isTerminal, hreg, hw, hin]
  | sendFail e h =>
    obtain ⟨hreg, hw, hin⟩ := hB h
    simp [Exec.JobInv, Exec.JobState.isTerminal, hw, hin]
  | recvMsg h1 h2 =>
    obtain ⟨hh, hw, hreg⟩ := hC h2
    simp [Exec.JobInv, Exec.JobState.isTerminal, hh, hreg]
  | markRunning h =>
    obtain ⟨hh, hreg, hin⟩ := hD h
    simp [Exec.JobInv, Exec.JobState.isTerminal, hh, hin]
  | finishOk r h =>
    obtain ⟨hh, hreg, hin⟩ := hE h
    simp [Exec.JobInv, Exec.JobState.isTerminal, hh, hin]
  | finishErr e h =>
    obtain ⟨hh, hreg, hin⟩ := hE h
    simp [Exec.JobInv, Exec.JobState.isTerminal, hh, hin]

/-- Every reachable state satisfies the job registry invariant. -/
theorem reachable_jobInv {s : Exec.JobSys} (h : Exec.Reachable s) :
    Exec.JobInv s := by
  induction h with
  | init => exact jobInv_init
  | step hr hs ih => exact jobInv_step ih hs

/-- C8: in every reachable interleaving of the admission handler and a
worker on one job id, a registry entry that is Completed or Error is never
written again, and an entry that is Running is never followed by Queued. -/
theorem c8_registry_terminal_stability (s s1 : Exec.JobSys)
    (hr : Exec.Reachable s) (hs : Exec.JobStep s s1) :
    (∀ st, s.reg = some st → st.isTerminal → s1.reg = s.reg) ∧
    (s.reg = some Exec.JobState.Running →
      ¬ s1.reg = some Exec.JobState.Queued) := by
  obtain ⟨hA, hB, hC, hD, hE, hF, hG, hH⟩ := reachable_jobInv hr
  constructor
  · intro st hst hterm
    obtain ⟨hh, hww⟩ := hG st hst hterm
    cases hs with
    | insertQueued h => simp [h] at hh
    | sendOk h => simp
    | sendFail e h => simp [h] at hh
    | recvMsg h1 h2 => simp
    | markRunning h =>
      rcases hww with h1 | ⟨h1, _⟩ <;> simp [h] at h1
    | finishOk r h =>
      rcases hww with h1 | ⟨h1, _⟩ <;> simp [h] at h1
    | finishErr e h =>
      rcases hww with h1 | ⟨h1, _⟩ <;> simp [h] at h1
  · intro hrun
    obtain ⟨hwr, hhd⟩ := hH hrun
    cases hs with
    | insertQueued h => simp [h] at hhd
    | sendOk h => simp [h] at hhd
    | sendFail e h => simp [h] at hhd
    | recvMsg h1 h2 => simp [h1] at hwr
    | markRunning h => simp [h] at hwr
    | finishOk r h => simp
    | finishErr e h => simp
  
/-- C8 witness: a concrete reachable run of one job through admission,
receive and Running, then the terminal Completed write; the step away from
Running does not produce Queued. -/
theorem c8_registry_terminal_stability_witness :
    (some (Exec.JobState.Completed c8_resp) = some Exec.JobState.Queued) = False := by
  have h1 : Exec.Reachable Exec.JobSys.init := Exec.Reachable.init
  have h2 := Exec.Reachable.step h1 (Exec.JobStep.insertQueued Exec.JobSys.init rfl)
  have h3 := Exec.Reachable.step h2 (Exec.JobStep.sendOk _ rfl)
  have h4 := Exec.Reachable.step h3 (Exec.JobStep.recvMsg _ rfl rfl)
  have h5 := Exec.Reachable.step h4 (Exec.JobStep.markRunning _ rfl)
  exact eq_false ((c8_registry_terminal_stability _ _ h5
    (Exec.JobStep.finishOk _ c8_resp rfl)).2 rfl)
